import Mathlib

/-!
Shallow embedding of the control core of the Microbot python agent
(`python_agent/custom_env.py` and `python_agent/zmq_client.py`).

Modelling conventions:
* Python/JSON dynamic values are modelled by the inductive type `Val`.
  Booleans and numeric strings are not modelled (no claim depends on them);
  `float()` applied to a string is treated as a failing conversion.
* Python floats are modelled by `ℚ` (exact arithmetic; float rounding is
  ignored — all constants involved are exactly representable and all claims
  are about branch structure and exact constants).
* A raised-and-uncaught Python exception is modelled by `Option.none`
  (for `_get_obs`, whose `try` block catches `TypeError`/`ValueError` and
  every other `Exception` alike, an exception inside the block is modelled
  by the `Except.error` branch carrying the partially updated observation,
  mirroring the fact that assignments made before the failure persist).
* numpy fixed-shape arrays are modelled by Lean lists of the declared
  length; indexed reads use `List.getD` (the shapes are maintained by
  construction, so the default is never consulted on real states) and
  indexed writes use `List.set`.
-/

namespace Microbot

/-! ### Constants from custom_env.py -/

def MAX_NEARBY_NPCS : Nat := 3

def MAX_INVENTORY_ITEMS : Nat := 5

def MAX_GROUND_ITEMS : Nat := 5

def GOBLIN_NPC_ID : ℚ := 125

def FOOD_ITEM_IDS : List Int := [315, 2140, 2309]

def EAT_HEALTH_THRESHOLD_PERCENTAGE : ℚ := 6 / 10

def GOBLIN_AREA_WAYPOINTS : List (Int × Int × Int) :=
  [(3248, 3237, 0), (3252, 3230, 0), (3245, 3224, 0)]

def PLAYER_COMBAT_ANIMATION_IDS : List Int := [422, 423, 390, 393, 386, 80, 819, 1658]

/-! ### Dynamic (JSON/Python) values -/

/-- Dynamic value as produced by decoding a JSON reply (Python booleans and
the distinction between ints and floats carrying the same value are kept;
numeric strings are not modelled). -/
inductive Val where
  | null
  | int (n : Int)
  | num (q : ℚ)
  | str (s : String)
  | list (xs : List Val)
  | dict (kvs : List (String × Val))

/-- Python truthiness (`bool(v)` / `if v:`) for the modelled values. -/
def pyFalsy : Val → Bool
  | .null => true
  | .int n => n == 0
  | .num q => q == 0
  | .str s => s == ""
  | .list xs => xs.isEmpty
  | .dict kvs => kvs.isEmpty

/-- Python `v == s` for a string literal `s`: true only when `v` is that
string (comparison of a non-string to a string is `False`). -/
def Val.eqStr : Val → String → Bool
  | .str t, s => t == s
  | _, _ => false

/-- Python `d.get(k, dflt)` on a value already known to be a dict. -/
def dictGet (kvs : List (String × Val)) (k : String) (dflt : Val) : Val :=
  match kvs.lookup k with
  | some v => v
  | Option.none => dflt

/-- Python `float(v)`: succeeds on ints and floats, raises
`TypeError`/`ValueError` (modelled by `Option.none`) on `None`, strings,
lists and dicts. Numeric strings (which `float` would parse) are not
modelled. -/
def pyFloat : Val → Option ℚ
  | .int n => some (n : ℚ)
  | .num q => some q
  | _ => Option.none

/-- Truncation toward zero, as Python `int()` applied to a float. -/
def ratTrunc (q : ℚ) : Int :=
  if 0 ≤ q then ⌊q⌋ else ⌈q⌉

/-- Python `int(v)`: succeeds on ints and floats (truncating), raises on the
rest (numeric strings again not modelled). -/
def pyInt : Val → Option Int
  | .int n => some n
  | .num q => some (ratTrunc q)
  | _ => Option.none

/-! ### The normalized observation (`_get_obs` output shape) -/

/-- Fixed-shape normalized snapshot: `player_stats` has length 5
(cur hp, max hp, cur prayer, max prayer, run energy), `player_location`
length 3 (x, y, plane), `nearby_npcs_info` is 3 rows of [id, x, y, anim],
`inventory_item_ids` has length 5, `nearby_ground_items_info` is 5 rows of
[id, quantity, x, y]. -/
structure Obs where
  player_stats : List ℚ
  player_location : List ℚ
  nearby_npcs_info : List (List ℚ)
  inventory_item_ids : List ℚ
  nearby_ground_items_info : List (List ℚ)
  player_animation : Int
deriving Repr, DecidableEq

/-- The all-default observation `_get_obs` builds before parsing: stats and
location zeroed, every slot filled with sentinel -1, animation -1. -/
def defaultObs : Obs where
  player_stats := [0, 0, 0, 0, 0]
  player_location := [0, 0, 0]
  nearby_npcs_info := List.replicate MAX_NEARBY_NPCS [-1, -1, -1, -1]
  inventory_item_ids := List.replicate MAX_INVENTORY_ITEMS (-1)
  nearby_ground_items_info := List.replicate MAX_GROUND_ITEMS [-1, -1, -1, -1]
  player_animation := -1

/-! ### Field assignment helpers (numpy element writes) -/

def setStat (i : Nat) (q : ℚ) (obs : Obs) : Obs :=
  { obs with player_stats := obs.player_stats.set i q }

def setLoc (i : Nat) (q : ℚ) (obs : Obs) : Obs :=
  { obs with player_location := obs.player_location.set i q }

def setNpc (i j : Nat) (q : ℚ) (obs : Obs) : Obs :=
  { obs with nearby_npcs_info :=
      obs.nearby_npcs_info.set i ((obs.nearby_npcs_info.getD i []).set j q) }

def setInv (i : Nat) (q : ℚ) (obs : Obs) : Obs :=
  { obs with inventory_item_ids := obs.inventory_item_ids.set i q }

def setGnd (i j : Nat) (q : ℚ) (obs : Obs) : Obs :=
  { obs with nearby_ground_items_info :=
      obs.nearby_ground_items_info.set i ((obs.nearby_ground_items_info.getD i []).set j q) }

/-- Convert a value with `float()` inside the big `try` block of `_get_obs`:
on failure the exception propagates, carrying the partially updated
observation `obs` (assignments already made persist). -/
def asFloat (v : Val) (obs : Obs) : Except Obs ℚ :=
  match pyFloat v with
  | some q => Except.ok q
  | Option.none => Except.error obs

/-- Convert a value with `int()` inside the `try` block of `_get_obs`. -/
def asInt (v : Val) (obs : Obs) : Except Obs Int :=
  match pyInt v with
  | some n => Except.ok n
  | Option.none => Except.error obs

/-! ### The parsing steps of `_get_obs`, in source order -/

/-- Player stats (lines 88-92) and player animation (line 93). -/
def parse_player (kvs : List (String × Val)) (obs : Obs) : Except Obs Obs := do
  let q ← asFloat (dictGet kvs "player_current_health" (.int 0)) obs
  let obs := setStat 0 q obs
  let q ← asFloat (dictGet kvs "player_max_health" (.int 0)) obs
  let obs := setStat 1 q obs
  let q ← asFloat (dictGet kvs "player_current_prayer" (.int 0)) obs
  let obs := setStat 2 q obs
  let q ← asFloat (dictGet kvs "player_max_prayer" (.int 0)) obs
  let obs := setStat 3 q obs
  let q ← asFloat (dictGet kvs "player_run_energy_percentage" (.num 0)) obs
  let obs := setStat 4 q obs
  let n ← asInt (dictGet kvs "player_animation" (.int (-1))) obs
  Except.ok { obs with player_animation := n }

/-- Player location (lines 96-102): truthy dict is parsed field by field,
falsy value zero-fills, truthy non-dict raises (`.get` on a non-dict). -/
def parse_location (kvs : List (String × Val)) (obs : Obs) : Except Obs Obs :=
  let ploc := dictGet kvs "player_location" (.dict [])
  if pyFalsy ploc then
    Except.ok (setLoc 0 0 (setLoc 1 0 (setLoc 2 0 obs)))
  else
    match ploc with
    | .dict pl => do
        let q ← asFloat (dictGet pl "x" (.int 0)) obs
        let obs := setLoc 0 q obs
        let q ← asFloat (dictGet pl "y" (.int 0)) obs
        let obs := setLoc 1 q obs
        let q ← asFloat (dictGet pl "plane" (.int 0)) obs
        Except.ok (setLoc 2 q obs)
    | _ => Except.error obs

/-- One iteration of the nearby-NPC loop body (lines 107-117): a dict entry
is parsed (id, then x/y only when the nested location is a dict, then
animation), a non-dict entry only logs a warning and leaves the slot
untouched. -/
def npc_entry (x : Val) (i : Nat) (obs : Obs) : Except Obs Obs :=
  match x with
  | .dict npc => do
      let q ← asFloat (dictGet npc "id" (.int (-1))) obs
      let obs := setNpc i 0 q obs
      let obs ←
        match dictGet npc "location" (.dict []) with
        | .dict loc => do
            let q ← asFloat (dictGet loc "x" (.int (-1))) obs
            let obs := setNpc i 1 q obs
            let q ← asFloat (dictGet loc "y" (.int (-1))) obs
            Except.ok (setNpc i 2 q obs)
        | _ => Except.ok obs
      let q ← asFloat (dictGet npc "animation" (.int (-1))) obs
      Except.ok (setNpc i 3 q obs)
  | _ => Except.ok obs

/-- The loop `for i in range(min(len(xs), MAX_NEARBY_NPCS))` over NPCs. -/
def npc_loop : List Val → Nat → Obs → Except Obs Obs
  | [], _, obs => Except.ok obs
  | x :: rest, i, obs =>
      if i < MAX_NEARBY_NPCS then do
        let obs ← npc_entry x i obs
        npc_loop rest (i + 1) obs
      else Except.ok obs

/-- One iteration of the inventory loop body (lines 122-127). -/
def inv_entry (x : Val) (i : Nat) (obs : Obs) : Except Obs Obs :=
  match x with
  | .dict item => do
      let q ← asFloat (dictGet item "id" (.int (-1))) obs
      Except.ok (setInv i q obs)
  | _ => Except.ok obs

/-- The loop `for i in range(min(len(xs), MAX_INVENTORY_ITEMS))`. -/
def inv_loop : List Val → Nat → Obs → Except Obs Obs
  | [], _, obs => Except.ok obs
  | x :: rest, i, obs =>
      if i < MAX_INVENTORY_ITEMS then do
        let obs ← inv_entry x i obs
        inv_loop rest (i + 1) obs
      else Except.ok obs

/-- One iteration of the ground-item loop body (lines 132-142). -/
def gnd_entry (x : Val) (i : Nat) (obs : Obs) : Except Obs Obs :=
  match x with
  | .dict g => do
      let q ← asFloat (dictGet g "id" (.int (-1))) obs
      let obs := setGnd i 0 q obs
      let q ← asFloat (dictGet g "quantity" (.int 0)) obs
      let obs := setGnd i 1 q obs
      let obs ←
        match dictGet g "location" (.dict []) with
        | .dict loc => do
            let q ← asFloat (dictGet loc "x" (.int (-1))) obs
            let obs := setGnd i 2 q obs
            let q ← asFloat (dictGet loc "y" (.int (-1))) obs
            Except.ok (setGnd i 3 q obs)
        | _ => Except.ok obs
      Except.ok obs
  | _ => Except.ok obs

/-- The loop `for i in range(min(len(xs), MAX_GROUND_ITEMS))`. -/
def gnd_loop : List Val → Nat → Obs → Except Obs Obs
  | [], _, obs => Except.ok obs
  | x :: rest, i, obs =>
      if i < MAX_GROUND_ITEMS then do
        let obs ← gnd_entry x i obs
        gnd_loop rest (i + 1) obs
      else Except.ok obs

/-- Extract a list-typed telemetry field (default `[]`); a non-list value
makes `len()` raise (strings and dicts, which also support `len`, are not
modelled as list fields). -/
def parse_npcs (kvs : List (String × Val)) (obs : Obs) : Except Obs Obs :=
  match dictGet kvs "nearby_npcs" (.list []) with
  | .list xs => npc_loop xs 0 obs
  | _ => Except.error obs

def parse_inventory (kvs : List (String × Val)) (obs : Obs) : Except Obs Obs :=
  match dictGet kvs "inventory" (.list []) with
  | .list xs => inv_loop xs 0 obs
  | _ => Except.error obs

def parse_ground_items (kvs : List (String × Val)) (obs : Obs) : Except Obs Obs :=
  match dictGet kvs "nearby_ground_items" (.list []) with
  | .list xs => gnd_loop xs 0 obs
  | _ => Except.error obs

/-- The whole `try`/`except` body of `_get_obs` (lines 86-150): on an
exception anywhere inside, the handler keeps the partially updated
observation and resets `player_animation` to -1. -/
def run_parse (kvs : List (String × Val)) (obs : Obs) : Obs :=
  match (do
      let obs ← parse_player kvs obs
      let obs ← parse_location kvs obs
      let obs ← parse_npcs kvs obs
      let obs ← parse_inventory kvs obs
      parse_ground_items kvs obs : Except Obs Obs) with
  | Except.ok o => o
  | Except.error o => { o with player_animation := -1 }

/-- `_get_obs` applied to the (already decoded) reply of
`client.get_observation()`. `Option.none` models an exception escaping
`_get_obs` (`.get` on a truthy non-dict raises before the `try` block). -/
def get_obs (raw : Val) : Option Obs :=
  if pyFalsy raw then some defaultObs
  else
    match raw with
    | .dict kvs =>
        if (dictGet kvs "status" Val.null).eqStr "error" then some defaultObs
        else some (run_parse kvs defaultObs)
    | _ => Option.none

/-! ### Decision engine (`_handle_attack_npc`, `_handle_eat_food`, `step` dispatch) -/

/-- The (action_type, parameters) pair submitted over ZMQ, as a tagged
union of the dicts built by the handlers and by `step`. -/
inductive ActionRequest where
  | attack_npc (npc_id : Int)
  | interact_inventory (item_id : Int) (action : String)
  | walk_to (x y plane : Int)
deriving Repr, DecidableEq

/-- The `action_specific_reward_info` dict returned by the handlers: only
the keys the reward calculation and the claims read are modelled. A key
absent from the Python dict is `Option.none` (respectively `false` for the
two flags, which are only ever read for truthiness). -/
structure ActionInfo where
  action_taken : Option String := Option.none
  attack_attempted : Bool := false
  eat_attempted : Bool := false
  target_id : Option Int := Option.none
  food_id : Option Int := Option.none
  error : Option String := Option.none
  status : Option String := Option.none
deriving Repr, DecidableEq

/-- Element read `obs["nearby_npcs_info"][i, j]`. -/
def npcField (obs : Obs) (i j : Nat) : ℚ :=
  (obs.nearby_npcs_info.getD i []).getD j (-1)

/-- Comparison `dist_sq < min_dist_sq` where `min_dist_sq` starts at
`float('inf')`, modelled by `Option.none`. -/
def ltMin (d : ℚ) : Option ℚ → Prop
  | Option.none => True
  | some m => d < m

instance (d : ℚ) (m : Option ℚ) : Decidable (ltMin d m) := by
  cases m <;> simp [ltMin] <;> infer_instance

/-- One iteration of the goblin scan loop of `_handle_attack_npc`
(lines 265-277), acting on the state `(best_target_goblin_id, min_dist_sq)`. -/
def scanStep (obs : Obs) (st : Option Int × Option ℚ) (i : Nat) : Option Int × Option ℚ :=
  let npc_id := npcField obs i 0
  let npc_x := npcField obs i 1
  let npc_y := npcField obs i 2
  if npc_id = GOBLIN_NPC_ID then
    if npc_x ≠ -1 ∧ npc_y ≠ -1 then
      let player_x := obs.player_location.getD 0 0
      let player_y := obs.player_location.getD 1 0
      let dist_sq := (player_x - npc_x) ^ 2 + (player_y - npc_y) ^ 2
      if ltMin dist_sq st.2 then (some (ratTrunc npc_id), some dist_sq) else st
    else st
  else st

/-- The full scan `for i in range(MAX_NEARBY_NPCS)` with initial state
`(None, float('inf'))`. -/
def goblinScan (obs : Obs) : Option Int × Option ℚ :=
  (List.range MAX_NEARBY_NPCS).foldl (scanStep obs) (Option.none, Option.none)

/-- `_handle_attack_npc` (lines 237-289). It takes and returns the mutable
field `self.current_target_npc_id` (unchanged on the early-return paths,
set on the two late paths). The `is None` element checks of line 245 are
constant false on numpy float rows and are dropped; `nearby_npcs_info` is
structurally always present in the fixed-shape snapshot, so the
"NPC info missing" early return (lines 252-254) is unreachable and elided. -/
def handle_attack_npc (target : Option Int) (last_observation : Option Obs) :
    Option ActionRequest × ActionInfo × Option Int :=
  match last_observation with
  | Option.none =>
      (Option.none, { attack_attempted := false, error := some "Missing last_observation" }, target)
  | some obs =>
      if obs.player_location.getD 0 0 = 0 ∧ obs.player_location.getD 1 0 = 0 then
        (Option.none,
         { attack_attempted := false, error := some "Player location missing or uninitialized" },
         target)
      else
        match (goblinScan obs).1 with
        | some best =>
            (some (.attack_npc best),
             { attack_attempted := true, target_id := some best }, some best)
        | Option.none =>
            (Option.none,
             { attack_attempted := false, error := some "No suitable goblin found" }, Option.none)

/-- The inventory scan of `_handle_eat_food` (lines 319-324): first slot
whose id is not the -1 padding and whose truncation is in `FOOD_ITEM_IDS`;
the loop breaks at the first hit. -/
def findFood (inv : List ℚ) : Option Int :=
  (List.range MAX_INVENTORY_ITEMS).foldl
    (fun acc i =>
      match acc with
      | some _ => acc
      | Option.none =>
          let item_id := inv.getD i (-1)
          if item_id ≠ -1 ∧ FOOD_ITEM_IDS.contains (ratTrunc item_id) then
            some (ratTrunc item_id)
          else Option.none)
    Option.none

/-- `_handle_eat_food` (lines 291-333). Note: it performs no check on the
player location. -/
def handle_eat_food (last_observation : Option Obs) : Option ActionRequest × ActionInfo :=
  match last_observation with
  | Option.none =>
      (Option.none, { eat_attempted := false, error := some "Missing last_observation" })
  | some obs =>
      if obs.player_stats.length < 2 then
        (Option.none, { eat_attempted := false, error := some "Player stats missing or incomplete" })
      else
        let current_health := obs.player_stats.getD 0 0
        let max_health := obs.player_stats.getD 1 0
        if max_health ≤ 0 then
          (Option.none, { eat_attempted := false, error := some "Invalid max_health" })
        else if ¬ (current_health / max_health ≤ EAT_HEALTH_THRESHOLD_PERCENTAGE) then
          (Option.none, { eat_attempted := false, status := some "Health sufficient" })
        else
          match findFood obs.inventory_item_ids with
          | some food_id =>
              (some (.interact_inventory food_id "Eat"),
               { eat_attempted := true, food_id := some food_id })
          | Option.none =>
              (Option.none, { eat_attempted := false, error := some "No food found" })

/-! ### Reward calculation (`_calculate_reward`) -/

/-- The health-increase test of lines 371-374. The two
`.get("player_stats") is not None` conjuncts are structurally true on the
fixed-shape snapshot and are elided; `prev_obs` truthiness corresponds to
the `Option` match. -/
def eatHealthImproved (prev_obs : Option Obs) (current_obs : Obs) : Prop :=
  match prev_obs with
  | some p =>
      0 < p.player_stats.length ∧ 0 < current_obs.player_stats.length ∧
      p.player_stats.getD 0 0 < current_obs.player_stats.getD 0 0
  | Option.none => False

instance (p : Option Obs) (c : Obs) : Decidable (eatHealthImproved p c) := by
  cases p <;> simp [eatHealthImproved] <;> infer_instance

/-- `_calculate_reward` (lines 335-402). `action_status` is the `status`
field of the action-outcome dict (`Option.none` when the key is absent);
`action_taken` is the discrete action code. -/
def calculate_reward (base_action_cost : ℚ) (info : ActionInfo) (prev_obs : Option Obs)
    (current_obs : Obs) (action_status : Option String) (action_taken : Int) : ℚ :=
  let reward := base_action_cost
  let reward :=
    if action_status = some "error" then reward - 5 / 10
    else if action_status = some "no_action_taken" ∧ action_taken ≠ 3 then
      if info.error = some "No suitable goblin found" ∧ action_taken = 0 then reward - 5 / 10
      else if info.error = some "No food found" ∧ action_taken = 1 then reward - 3 / 10
      else if info.status = some "Health sufficient" ∧ action_taken = 1 then reward - 3 / 10
      else reward
    else reward
  let reward :=
    if action_status = some "submitted" then
      let reward := reward + 1 / 10
      if action_taken = 0 then
        if info.attack_attempted then reward + 5 / 10 else reward
      else if action_taken = 1 then
        if info.eat_attempted then
          if eatHealthImproved prev_obs current_obs then
            let health_increase :=
              current_obs.player_stats.getD 0 0 - (prev_obs.getD defaultObs).player_stats.getD 0 0
            reward + health_increase * (5 / 10)
          else reward - 1 / 10
        else reward
      else if action_taken = 2 then reward + 5 / 100
      else reward
    else reward
  let reward := if action_taken = 3 then 0 else reward
  let reward :=
    if 0 < current_obs.player_stats.length ∧ current_obs.player_stats.getD 0 0 ≤ 0 then
      -100
    else reward
  reward

/-! ### Episode controller (`reset` and `step`) -/

/-- The mutable fields of `CustomGameEnv` the control flow reads and
writes (set in `__init__`, lines 48-53). -/
structure EnvState where
  last_observation : Option Obs
  current_target_npc_id : Option Int
  waypoint_index : Nat
  player_is_in_combat_animation : Bool
deriving Repr, DecidableEq

/-- The state `__init__` leaves behind. -/
def initialEnvState : EnvState where
  last_observation := Option.none
  current_target_npc_id := Option.none
  waypoint_index := 0
  player_is_in_combat_animation := false

/-- `_update_combat_state_from_obs` (lines 160-167): membership of the
player animation id in the fixed combat-animation list. -/
def combatStateFrom (observation : Option Obs) : Bool :=
  match observation with
  | some o => PLAYER_COMBAT_ANIMATION_IDS.contains o.player_animation
  | Option.none => false

/-- `reset` (lines 169-176): fetch and normalize one snapshot (`raw` is the
decoded reply of `get_observation`), recompute the combat state, replace
`last_observation`. `Option.none` models `_get_obs` raising. -/
def reset (st : EnvState) (raw : Val) : Option (EnvState × Obs) :=
  match get_obs raw with
  | some o =>
      some ({ st with
                player_is_in_combat_animation := combatStateFrom (some o),
                last_observation := some o }, o)
  | Option.none => Option.none

/-- The five-tuple `step` returns, plus the action outcome recorded in
`info` (`action_status` is the `status` field of the outcome dict). -/
structure StepResult where
  observation : Obs
  reward : ℚ
  terminated : Bool
  truncated : Bool
  action_status : Option String
  reward_info : ActionInfo
deriving Repr, DecidableEq

/-- `step` (lines 178-234). Oracle inputs stand for the external world:
`server_status` is the `status` field of the dict `execute_action` returns
when a request is submitted, and `raw` is the decoded reply of the
`get_observation` round trip that follows. Note the source passes
`self.last_observation` to `_calculate_reward` as `prev_obs` after already
overwriting it with the fresh snapshot (lines 213 and 219-221); the
embedding reproduces that aliasing faithfully. -/
def step (st : EnvState) (action : Int) (server_status : Option String) (raw : Val) :
    Option (EnvState × StepResult) :=
  let base_action_cost : ℚ := -1 / 10
  let dispatched : Option ActionRequest × ActionInfo × EnvState :=
    if action = 0 then
      let r := handle_attack_npc st.current_target_npc_id st.last_observation
      (r.1, r.2.1, { st with current_target_npc_id := r.2.2 })
    else if action = 1 then
      let r := handle_eat_food st.last_observation
      (r.1, r.2, st)
    else if action = 2 then
      let wp := GOBLIN_AREA_WAYPOINTS.getD
        (st.waypoint_index % GOBLIN_AREA_WAYPOINTS.length) (0, 0, 0)
      (some (.walk_to wp.1 wp.2.1 wp.2.2),
       { action_taken := some "move_to_waypoint" },
       { st with waypoint_index := st.waypoint_index + 1 })
    else if action = 3 then
      (Option.none, { action_taken := some "noop" }, st)
    else
      (Option.none, { action_taken := some "unknown" }, st)
  let action_status : Option String :=
    match dispatched.1 with
    | some _ => server_status
    | Option.none => some "no_action_taken"
  match get_obs raw with
  | Option.none => Option.none
  | some current_observation =>
      let st1 := { dispatched.2.2 with
                     player_is_in_combat_animation := combatStateFrom (some current_observation),
                     last_observation := some current_observation }
      let reward := calculate_reward base_action_cost dispatched.2.1
        st1.last_observation current_observation action_status action
      let terminated := current_observation.player_stats.getD 0 0 ≤ 0
      some (st1,
        { observation := current_observation
          reward := reward
          terminated := decide terminated
          truncated := false
          action_status := action_status
          reward_info := dispatched.2.1 })

/-! ### Transport client (`zmq_client.py`) -/

/-- Observable resource events of the client, in the order they happen:
closing the old socket/context, the pre-reconnect sleep, creating the new
context/socket, and one send/recv round trip. -/
inductive Ev where
  | closeSock
  | closeCtx
  | sleep
  | newCtx
  | newSock
  | sendMsg (s : String)
  | recvMsg
deriving Repr, DecidableEq

/-- The connection-related fields of `ZMQClient`. `hasSocket`/`hasContext`
record whether a (possibly stale) socket/context object is held, i.e.
whether `if self.socket:` / `if self.context:` are truthy. Timestamps
(`last_successful_communication`) are real time and are not modelled. -/
structure ClientState where
  connected : Bool
  hasSocket : Bool
  hasContext : Bool
  connection_attempts : Nat
deriving Repr, DecidableEq

/-- Outcome of one attempted send/recv round trip, as an oracle input:
a reply (carrying the raw string and its JSON decoding, `Option.none` when
`json.loads` fails), a receive timeout (`zmq.error.Again`), another ZMQ
error, or an unexpected exception. -/
inductive TransportResult where
  | reply (raw : String) (decoded : Option Val)
  | timeout
  | zmqError (msg : String)
  | otherError (msg : String)

/-- Error dict `{"status": "error", "message": msg}`. -/
def errDict (msg : String) : Val :=
  Val.dict [("status", Val.str "error"), ("message", Val.str msg)]

/-- `_initialize_connection` (lines 19-34): `ok` is the oracle for whether
the context/socket creation and connect succeed. On success a fresh
context and socket exist, the client is marked connected and the attempt
counter increments; on failure the exception is re-raised (surfacing as
`false` here) with the client marked disconnected. Partial resource
creation during a failed attempt is not modelled. -/
def initConnection (st : ClientState) (ok : Bool) : ClientState × Bool × List Ev :=
  if ok then
    ({ st with hasContext := true, hasSocket := true, connected := true,
               connection_attempts := st.connection_attempts + 1 },
     true, [Ev.newCtx, Ev.newSock])
  else
    ({ st with connected := false, hasContext := false, hasSocket := false }, false, [])

/-- `_reconnect` (lines 36-53): immediate success when still connected;
otherwise close the old socket and context (in that order), sleep, and run
`_initialize_connection` once, reporting its success. -/
def reconnect (st : ClientState) (initOk : Bool) : ClientState × Bool × List Ev :=
  if st.connected then (st, true, [])
  else
    let closes :=
      (if st.hasSocket then [Ev.closeSock] else []) ++
      (if st.hasContext then [Ev.closeCtx] else [])
    let st := { st with hasSocket := false, hasContext := false }
    let r := initConnection st initOk
    (r.1, r.2.1, closes ++ [Ev.sleep] ++ r.2.2)

/-- The send/recv part of `send_command` (lines 82-125), entered once the
client is connected: one send, one receive, then the four outcome cases. -/
def sendRecv (st : ClientState) (tr : TransportResult) (raw_message : String) :
    ClientState × Val × List Ev :=
  let evs := [Ev.sendMsg raw_message, Ev.recvMsg]
  match tr with
  | .reply raw decoded =>
      match decoded with
      | some v => (st, v, evs)
      | Option.none =>
          (st, Val.dict [("status", Val.str "error"),
                         ("message", Val.str ("Failed to decode JSON response: " ++ raw)),
                         ("raw_response", Val.str raw)], evs)
  | .timeout =>
      ({ st with connected := false }, errDict "ZMQ timeout", evs)
  | .zmqError msg =>
      ({ st with connected := false },
       errDict ("ZMQError during communication for command " ++ raw_message ++ ": " ++ msg), evs)
  | .otherError msg =>
      ({ st with connected := false },
       errDict ("Unexpected error during ZMQ communication for command " ++ raw_message ++ ": " ++ msg),
       evs)

/-- `send_command` (lines 55-125) from the `try` block on: if the client is
marked disconnected, attempt exactly one reconnection, failing the call
with a "Connection failed" error result (and no send) when it fails;
otherwise perform the round trip. The raw-message construction and the
`ValueError`s for unknown command types (lines 56-70, before the `try`)
are outside the modelled fragment. -/
def send_command (st : ClientState) (reconnectInitOk : Bool) (tr : TransportResult)
    (raw_message : String) : ClientState × Val × List Ev :=
  if st.connected then sendRecv st tr raw_message
  else
    let r := reconnect st reconnectInitOk
    if r.2.1 then
      let s := sendRecv r.1 tr raw_message
      (s.1, s.2.1, r.2.2 ++ s.2.2)
    else
      (r.1, errDict "Connection failed", r.2.2)

/-! ### Statement-level predicates and concrete instances used by the theorems -/

/-- Raw input carrying an error status: a dict whose "status" field equals
the string "error". -/
def hasErrorStatus : Val → Bool
  | .dict kvs => (dictGet kvs "status" Val.null).eqStr "error"
  | _ => false

/-- A nearby-NPC slot matching the attack rule: the configured goblin id
with valid (non-sentinel) coordinates. -/
def goblinSlotValid (obs : Obs) (i : Nat) : Prop :=
  npcField obs i 0 = GOBLIN_NPC_ID ∧ npcField obs i 1 ≠ -1 ∧ npcField obs i 2 ≠ -1

instance (obs : Obs) (i : Nat) : Decidable (goblinSlotValid obs i) := by
  unfold goblinSlotValid
  infer_instance

/-- Squared Euclidean distance from the player to the NPC in slot `i`. -/
def slotDistSq (obs : Obs) (i : Nat) : ℚ :=
  (obs.player_location.getD 0 0 - npcField obs i 1) ^ 2 +
  (obs.player_location.getD 1 0 - npcField obs i 2) ^ 2

/-- Snapshot with current health 0 (player dead), otherwise default. -/
def deadObs : Obs := { defaultObs with player_stats := [0, 100, 0, 0, 0] }

/-- Snapshot with health 30/100, an initialized location and a cooked
shrimp (id 315) in inventory slot 0. -/
def eatTestObs : Obs :=
  { defaultObs with
      player_stats := [30, 100, 0, 0, 0],
      player_location := [3222, 3222, 0],
      inventory_item_ids := [315, -1, -1, -1, -1] }

/-- Environment state holding `eatTestObs` as the previous snapshot. -/
def eatTestState : EnvState := { initialEnvState with last_observation := some eatTestObs }

/-- Telemetry for the snapshot fetched after the eat action: health 50/100. -/
def eatTestRaw : Val :=
  Val.dict [("player_current_health", Val.int 50), ("player_max_health", Val.int 100)]

/-- Malformed telemetry: health converts, max health is a non-numeric
string (fails `float()`). -/
def c4Raw : Val :=
  Val.dict [("player_current_health", Val.int 50), ("player_max_health", Val.str "full")]

/-- Telemetry whose stats and animation parse fine, whose location x field
fails conversion, and which carries one well-formed NPC after the failing
field. -/
def c5Raw : Val :=
  Val.dict [("player_current_health", Val.int 50), ("player_max_health", Val.int 99),
            ("player_animation", Val.int 7),
            ("player_location", Val.dict [("x", Val.str "here")]),
            ("nearby_npcs", Val.list [Val.dict [("id", Val.int 125)]])]

/-- Snapshot with low health and food in slot 0 but an uninitialized
(origin) player location. -/
def c6Obs : Obs :=
  { defaultObs with
      player_stats := [30, 100, 0, 0, 0],
      inventory_item_ids := [315, -1, -1, -1, -1] }

/-- Environment state after two MoveTo steps and a successful attack
targeting id 125. -/
def c7State : EnvState :=
  { initialEnvState with current_target_npc_id := some 125, waypoint_index := 2 }

/-- Snapshot with two goblins (slot 0 at squared distance 9, slot 1 at
squared distance 1) and one non-goblin, player location initialized. -/
def attackTestObs : Obs :=
  { defaultObs with
      player_location := [3222, 3222, 0],
      nearby_npcs_info := [[125, 3225, 3222, -1], [125, 3223, 3222, -1], [1, 5, 5, -1]] }

/-- Well-formed NPC record {id, location {x, y}, animation}. -/
def mkNpcVal (e : ℚ × ℚ × ℚ × ℚ) : Val :=
  Val.dict [("id", Val.num e.1),
            ("location", Val.dict [("x", Val.num e.2.1), ("y", Val.num e.2.2.1)]),
            ("animation", Val.num e.2.2.2)]

/-- Well-formed inventory record {id}. -/
def mkInvVal (q : ℚ) : Val := Val.dict [("id", Val.num q)]

/-- Well-formed ground-item record {id, quantity, location {x, y}}. -/
def mkGndVal (e : ℚ × ℚ × ℚ × ℚ) : Val :=
  Val.dict [("id", Val.num e.1), ("quantity", Val.num e.2.1),
            ("location", Val.dict [("x", Val.num e.2.2.1), ("y", Val.num e.2.2.2)])]

/-- The snapshot `eatTestRaw` normalizes to: health 50/100. -/
def eatResultObs : Obs := { defaultObs with player_stats := [50, 100, 0, 0, 0] }

/-! ## Theorems -/

/-- C1 (evaluation at the failing input): a step that chooses the eat
action from a previous snapshot with health 30/100 and food in slot 0,
whose action outcome is "submitted" and whose freshly fetched snapshot has
health 50 — strictly above the previous 30 — yields reward -0.1 (the
no-observed-benefit penalty branch), not the claimed
baseCost + submission bonus + 0.5 per healed point. The cause is that
`step` overwrites `last_observation` with the fresh snapshot before
passing it to `_calculate_reward` as the previous snapshot, so the
healing comparison is between the new snapshot and itself. -/
theorem eat_bonus_compares_snapshot_with_itself :
    eatTestObs.player_stats.getD 0 0 = 30
    ∧ get_obs eatTestRaw = some eatResultObs
    ∧ eatResultObs.player_stats.getD 0 0 = 50
    ∧ (step eatTestState 1 (some "submitted") eatTestRaw).map
        (fun p => (p.2.reward, p.2.action_status, p.2.reward_info.eat_attempted))
        = some (-1 / 10, some "submitted", true)
    ∧ (-1 / 10 : ℚ) ≠ -1 / 10 + 1 / 10 + (50 - 30) * (5 / 10) := by
  have hobs : get_obs eatTestRaw = some eatResultObs := by decide
  refine ⟨by decide, hobs, by decide, ?_, by norm_num⟩
  simp only [step, hobs]
  norm_num [eatTestState, eatTestObs, initialEnvState, handle_eat_food,
    findFood, MAX_INVENTORY_ITEMS, EAT_HEALTH_THRESHOLD_PERCENTAGE, FOOD_ITEM_IDS, ratTrunc,
    List.range_succ, calculate_reward, eatHealthImproved, combatStateFrom, eatResultObs,
    defaultObs]
  rw [if_neg (by decide : ¬ ("submitted" = "error")),
      if_neg (by decide : ¬ ("submitted" = "no_action_taken"))]

/-- C2: for every reward computation in which the new snapshot's current
health is at most 0 (the snapshot being non-degenerate, that is, its stats
vector non-empty, as every normalized snapshot is), the result is exactly
the fixed death penalty -100, regardless of the action, the outcome status,
the previous snapshot and every other term. -/
theorem death_penalty_overrides_all (base : ℚ) (info : ActionInfo) (prev_obs : Option Obs)
    (current_obs : Obs) (action_status : Option String) (action_taken : Int)
    (hlen : 0 < current_obs.player_stats.length)
    (hdead : current_obs.player_stats.getD 0 0 ≤ 0) :
    calculate_reward base info prev_obs current_obs action_status action_taken = -100 := by
  simp only [calculate_reward]
  rw [if_pos ⟨hlen, hdead⟩]

/-- Witness for C2: a concrete dead snapshot after a submitted attack. -/
theorem death_penalty_overrides_all_w :
    0 < deadObs.player_stats.length ∧ deadObs.player_stats.getD 0 0 ≤ 0 ∧
    calculate_reward (-1 / 10) { attack_attempted := true } (some defaultObs) deadObs
      (some "submitted") 0 = -100 :=
  ⟨by decide, by decide,
   death_penalty_overrides_all (-1 / 10) { attack_attempted := true } (some defaultObs) deadObs
     (some "submitted") 0 (by decide) (by decide)⟩

/-- C3 counterexample: a NoOp step whose fresh snapshot has current health
0 yields the death penalty -100, not the fixed neutral 0 the claim
requires regardless of the new snapshot's current health. -/
theorem noop_death_not_neutral :
    calculate_reward (-1 / 10) { action_taken := some "noop" } (some deadObs) deadObs
      (some "no_action_taken") 3 = -100 ∧ (-100 : ℚ) ≠ 0 := by
  constructor
  · decide
  · decide

/-- C3 amended: for every NoOp reward computation whose new snapshot has
strictly positive current health, the reward is exactly 0, regardless of
the outcome status, both snapshots and the decision diagnostics. -/
theorem noop_neutral_when_alive (base : ℚ) (info : ActionInfo) (prev_obs : Option Obs)
    (current_obs : Obs) (action_status : Option String)
    (halive : 0 < current_obs.player_stats.getD 0 0) :
    calculate_reward base info prev_obs current_obs action_status 3 = 0 := by
  have hnot : ¬ (0 < current_obs.player_stats.length ∧
      current_obs.player_stats.getD 0 0 ≤ 0) := by
    rintro ⟨-, hle⟩
    exact absurd halive (not_lt.mpr hle)
  simp only [calculate_reward]
  rw [if_neg hnot]
  simp

/-- Witness for C3 amended: NoOp with a live default-health snapshot. -/
theorem noop_neutral_when_alive_w :
    0 < eatTestObs.player_stats.getD 0 0 ∧
    calculate_reward (-1 / 10) { action_taken := some "noop" } (some eatTestObs) eatTestObs
      (some "no_action_taken") 3 = 0 :=
  ⟨by decide,
   noop_neutral_when_alive (-1 / 10) { action_taken := some "noop" } (some eatTestObs) eatTestObs
     (some "no_action_taken") (by decide)⟩

/-- C6 counterexample: the eat rule acts (emits an interact-inventory
request with the found food id) on a snapshot whose player location is the
uninitialized origin, rather than refusing with a location-unavailable
reason. -/
theorem eat_rule_has_no_location_check :
    c6Obs.player_location = [0, 0, 0] ∧
    handle_eat_food (some c6Obs)
      = (some (ActionRequest.interact_inventory 315 "Eat"),
         { eat_attempted := true, food_id := some 315 }) := by
  refine ⟨by decide, ?_⟩
  norm_num [handle_eat_food, c6Obs, defaultObs, findFood, MAX_INVENTORY_ITEMS,
    EAT_HEALTH_THRESHOLD_PERCENTAGE, FOOD_ITEM_IDS, ratTrunc, List.range_succ]

/-- C6 amended: the attack rule (alone) refuses to act on an uninitialized
(origin) player location, emitting no request and recording the
location-unavailable failure reason, for every value of the other snapshot
fields and of the current target; the eat rule performs no location check. -/
theorem attack_refuses_uninitialized_location (target : Option Int) (obs : Obs)
    (h0 : obs.player_location.getD 0 0 = 0) (h1 : obs.player_location.getD 1 0 = 0) :
    handle_attack_npc target (some obs)
      = (Option.none,
         { attack_attempted := false, error := some "Player location missing or uninitialized" },
         target) := by
  simp only [handle_attack_npc]
  rw [if_pos ⟨h0, h1⟩]

/-- Witness for C6 amended: the low-health, food-holding snapshot with
origin location is refused by the attack rule. -/
theorem attack_refuses_uninitialized_location_w :
    c6Obs.player_location.getD 0 0 = 0 ∧ c6Obs.player_location.getD 1 0 = 0 ∧
    handle_attack_npc (some 125) (some c6Obs)
      = (Option.none,
         { attack_attempted := false, error := some "Player location missing or uninitialized" },
         some 125) :=
  ⟨by decide, by decide,
   attack_refuses_uninitialized_location (some 125) c6Obs (by decide) (by decide)⟩

/-- C7 counterexample: resetting from a state with waypoint cursor 2 and
current target 125 leaves both untouched — the cursor is not back at its
initial value and the target is not cleared. -/
theorem reset_keeps_cursor_and_target :
    (reset c7State Val.null).map (fun p => (p.1.waypoint_index, p.1.current_target_npc_id))
      = some (2, some 125)
    ∧ (2 : Nat) ≠ initialEnvState.waypoint_index
    ∧ (some 125 : Option Int) ≠ Option.none := by
  refine ⟨by decide, by decide, by decide⟩

/-- C7 amended: `reset` fetches and normalizes one snapshot, recomputes the
derived combat state, and replaces `last_observation` — and changes nothing
else: the waypoint cursor and the current target id keep their prior
values. -/
theorem reset_replaces_snapshot_only (st : EnvState) (raw : Val) (o : Obs)
    (h : get_obs raw = some o) :
    reset st raw
      = some ({ st with
                  player_is_in_combat_animation := combatStateFrom (some o),
                  last_observation := some o }, o) := by
  unfold reset
  rw [h]

/-- Witness for C7 amended: reset of `c7State` on absent telemetry keeps
cursor 2 and target 125 while installing the default snapshot. -/
theorem reset_replaces_snapshot_only_w :
    get_obs Val.null = some defaultObs ∧
    reset c7State Val.null
      = some ({ c7State with
                  player_is_in_combat_animation := combatStateFrom (some defaultObs),
                  last_observation := some defaultObs }, defaultObs) :=
  ⟨by decide, reset_replaces_snapshot_only c7State Val.null defaultObs (by decide)⟩

/-- C4 counterexample: a malformed (but truthy, non-error) telemetry dict
whose max-health field fails conversion does not normalize to the
all-default snapshot: the health field parsed before the failure is kept. -/
theorem normalize_partial_not_all_default :
    get_obs c4Raw = some { defaultObs with player_stats := [50, 0, 0, 0, 0] }
    ∧ ({ defaultObs with player_stats := [50, 0, 0, 0, 0] } : Obs) ≠ defaultObs := by
  refine ⟨by decide, by decide⟩

/-- C4 amended: for every telemetry input that is absent/falsy or carries
status "error", normalization returns the all-default snapshot; moreover
for every dict input, malformed fields included, normalization returns
some structurally valid snapshot — it never raises (a malformed dict may
retain the fields parsed before a failure, so it need not be all-default). -/
theorem normalize_default_on_absent_or_error :
    (∀ v : Val, pyFalsy v = true ∨ hasErrorStatus v = true → get_obs v = some defaultObs)
    ∧ (∀ kvs : List (String × Val), (get_obs (Val.dict kvs)).isSome = true) := by
  constructor
  · intro v hv
    rcases hv with hf | he
    · simp [get_obs, hf]
    · cases v with
      | dict kvs =>
          simp only [hasErrorStatus] at he
          by_cases hf : pyFalsy (Val.dict kvs) = true
          · simp [get_obs, hf]
          · simp [get_obs, hf, he]
      | null => simp [hasErrorStatus] at he
      | int n => simp [hasErrorStatus] at he
      | num q => simp [hasErrorStatus] at he
      | str t => simp [hasErrorStatus] at he
      | list xs => simp [hasErrorStatus] at he
  · intro kvs
    by_cases hf : pyFalsy (Val.dict kvs) = true
    · simp [get_obs, hf]
    · by_cases he : (dictGet kvs "status" Val.null).eqStr "error" = true
      · simp [get_obs, hf, he]
      · simp [get_obs, hf, he]

/-- Witness for C4 amended: absent telemetry (None) and the empty dict. -/
theorem normalize_default_on_absent_or_error_w :
    get_obs Val.null = some defaultObs
    ∧ (get_obs (Val.dict [])).isSome = true :=
  ⟨normalize_default_on_absent_or_error.1 Val.null (Or.inl (by decide)),
   normalize_default_on_absent_or_error.2 []⟩

/-- C5 counterexample: on telemetry whose only ill-typed field is the
location x coordinate, the returned snapshot keeps the stats parsed before
the failure but resets the player animation to -1 (although it had parsed
as 7 before the failure) and leaves the NPC slots at sentinel (although a
well-formed NPC record followed the failing field) — not the claimed
"only the failing branch is defaulted". -/
theorem normalize_late_failure_drops_parsed_fields :
    (get_obs c5Raw).map
        (fun o => (o.player_stats, o.player_animation, o.nearby_npcs_info.getD 0 []))
      = some ([50, 99, 0, 0, 0], -1, [-1, -1, -1, -1])
    ∧ ((-1 : Int) ≠ 7)
    ∧ (([-1, -1, -1, -1] : List ℚ) ≠ [125, -1, -1, -1]) := by
  refine ⟨by decide, by decide, by decide⟩

/-- C5 amended: a conversion failure inside normalization aborts the parse
at the failing field: fields assigned before the failure keep their parsed
values, the failing field and every field processed after it stay at their
defaults, and the player animation is reset to the sentinel -1 even when it
parsed successfully earlier; the result is still a structurally valid
fixed-shape snapshot and no exception escapes. Stated for an input whose
player stats parse and whose location x field fails, with arbitrary list
fields after the failure point. -/
theorem normalize_failure_aborts_parse (h mh pr mpr run anim : Int) (bad npcsV invV gndV : Val)
    (hbad : pyFloat bad = Option.none) :
    get_obs (Val.dict [("player_current_health", Val.int h), ("player_max_health", Val.int mh),
        ("player_current_prayer", Val.int pr), ("player_max_prayer", Val.int mpr),
        ("player_run_energy_percentage", Val.int run), ("player_animation", Val.int anim),
        ("player_location", Val.dict [("x", bad)]),
        ("nearby_npcs", npcsV), ("inventory", invV), ("nearby_ground_items", gndV)])
      = some { defaultObs with
                 player_stats := [(h : ℚ), (mh : ℚ), (pr : ℚ), (mpr : ℚ), (run : ℚ)],
                 player_animation := -1 } := by
  have ha : ∀ (n : Int) (o : Obs), asFloat (Val.int n) o = Except.ok (n : ℚ) := by
    intro n o
    simp [asFloat, pyFloat]
  have hb : ∀ o : Obs, asFloat bad o = Except.error o := by
    intro o
    simp [asFloat, hbad]
  have hi : ∀ (n : Int) (o : Obs), asInt (Val.int n) o = Except.ok n := by
    intro n o
    simp [asInt, pyInt]
  simp [get_obs, run_parse, parse_player, parse_location, dictGet, List.lookup, pyFalsy,
    Val.eqStr, setStat, setLoc, defaultObs, ha, hb, hi, bind, Except.bind]

/-- Witness for C5 amended: concrete stats 50/99, animation 7, failing
string-typed x coordinate, empty list fields. -/
theorem normalize_failure_aborts_parse_w :
    pyFloat (Val.str "here") = Option.none
    ∧ get_obs (Val.dict [("player_current_health", Val.int 50), ("player_max_health", Val.int 99),
        ("player_current_prayer", Val.int 1), ("player_max_prayer", Val.int 2),
        ("player_run_energy_percentage", Val.int 0), ("player_animation", Val.int 7),
        ("player_location", Val.dict [("x", Val.str "here")]),
        ("nearby_npcs", Val.list []), ("inventory", Val.list []),
        ("nearby_ground_items", Val.list [])])
      = some { defaultObs with player_stats := [50, 99, 1, 2, 0], player_animation := -1 } := by
  refine ⟨rfl, ?_⟩
  have := normalize_failure_aborts_parse 50 99 1 2 0 7 (Val.str "here")
    (Val.list []) (Val.list []) (Val.list []) rfl
  exact this.trans (by decide)

/-- Unfolding of one scan step into the valid-slot/minimal-distance form. -/
theorem scanStep_eq (obs : Obs) (st : Option Int × Option ℚ) (i : Nat) :
    scanStep obs st i =
      if goblinSlotValid obs i then
        if ltMin (slotDistSq obs i) st.2 then (some 125, some (slotDistSq obs i)) else st
      else st := by
  have htr : ratTrunc GOBLIN_NPC_ID = 125 := by
    norm_num [ratTrunc, GOBLIN_NPC_ID]
  simp only [scanStep, goblinSlotValid, slotDistSq]
  by_cases hid : npcField obs i 0 = GOBLIN_NPC_ID
  · by_cases hxy : npcField obs i 1 ≠ -1 ∧ npcField obs i 2 ≠ -1
    · simp [hid, hxy, htr]
    · simp [hid, hxy]
  · simp [hid]

/-- The scan evaluates its three slots left to right. -/
theorem goblinScan_eq (obs : Obs) :
    goblinScan obs =
      scanStep obs (scanStep obs (scanStep obs (Option.none, Option.none) 0) 1) 2 := rfl

/-- Full characterization of the goblin scan: either no slot is a valid
goblin and the state stays (None, inf), or the state records the goblin id
together with the squared distance of the first slot attaining the minimum
over all valid slots. -/
theorem goblinScan_spec (obs : Obs) :
    (goblinScan obs = ((Option.none : Option Int), (Option.none : Option ℚ))
       ∧ ∀ i, i < MAX_NEARBY_NPCS → ¬ goblinSlotValid obs i)
    ∨ ∃ i, i < MAX_NEARBY_NPCS ∧ goblinSlotValid obs i
        ∧ goblinScan obs = (some 125, some (slotDistSq obs i))
        ∧ (∀ j, j < MAX_NEARBY_NPCS → goblinSlotValid obs j →
             slotDistSq obs i ≤ slotDistSq obs j)
        ∧ (∀ j, j < i → goblinSlotValid obs j → slotDistSq obs i < slotDistSq obs j) := by
  simp only [MAX_NEARBY_NPCS]
  rw [goblinScan_eq, scanStep_eq, scanStep_eq, scanStep_eq]
  by_cases h0 : goblinSlotValid obs 0 <;> by_cases h1 : goblinSlotValid obs 1 <;>
    by_cases h2 : goblinSlotValid obs 2
  · -- slots 0, 1, 2 all valid
    by_cases h01 : slotDistSq obs 1 < slotDistSq obs 0
    · by_cases h12 : slotDistSq obs 2 < slotDistSq obs 1
      · refine Or.inr ⟨2, by omega, h2, by simp [h0, h1, h2, ltMin, h01, h12], ?_, ?_⟩
        · intro j hj _
          interval_cases j
          · exact le_of_lt (lt_trans h12 h01)
          · exact le_of_lt h12
          · exact le_refl _
        · intro j hj _
          interval_cases j
          · exact lt_trans h12 h01
          · exact h12
      · refine Or.inr ⟨1, by omega, h1, by simp [h0, h1, h2, ltMin, h01, h12], ?_, ?_⟩
        · intro j hj _
          interval_cases j
          · exact le_of_lt h01
          · exact le_refl _
          · exact not_lt.mp h12
        · intro j hj _
          interval_cases j
          exact h01
    · by_cases h02 : slotDistSq obs 2 < slotDistSq obs 0
      · refine Or.inr ⟨2, by omega, h2, by simp [h0, h1, h2, ltMin, h01, h02], ?_, ?_⟩
        · intro j hj _
          interval_cases j
          · exact le_of_lt h02
          · exact le_of_lt (lt_of_lt_of_le h02 (not_lt.mp h01))
          · exact le_refl _
        · intro j hj _
          interval_cases j
          · exact h02
          · exact lt_of_lt_of_le h02 (not_lt.mp h01)
      · refine Or.inr ⟨0, by omega, h0, by simp [h0, h1, h2, ltMin, h01, h02], ?_, ?_⟩
        · intro j hj _
          interval_cases j
          · exact le_refl _
          · exact not_lt.mp h01
          · exact not_lt.mp h02
        · intro j hj _
          omega
  · -- slots 0, 1 valid
    by_cases h01 : slotDistSq obs 1 < slotDistSq obs 0
    · refine Or.inr ⟨1, by omega, h1, by simp [h0, h1, h2, ltMin, h01], ?_, ?_⟩
      · intro j hj hv
        interval_cases j
        · exact le_of_lt h01
        · exact le_refl _
        · exact absurd hv h2
      · intro j hj _
        interval_cases j
        exact h01
    · refine Or.inr ⟨0, by omega, h0, by simp [h0, h1, h2, ltMin, h01], ?_, ?_⟩
      · intro j hj hv
        interval_cases j
        · exact le_refl _
        · exact not_lt.mp h01
        · exact absurd hv h2
      · intro j hj _
        omega
  · -- slots 0, 2 valid
    by_cases h02 : slotDistSq obs 2 < slotDistSq obs 0
    · refine Or.inr ⟨2, by omega, h2, by simp [h0, h1, h2, ltMin, h02], ?_, ?_⟩
      · intro j hj hv
        interval_cases j
        · exact le_of_lt h02
        · exact absurd hv h1
        · exact le_refl _
      · intro j hj hv
        interval_cases j
        · exact h02
        · exact absurd hv h1
    · refine Or.inr ⟨0, by omega, h0, by simp [h0, h1, h2, ltMin, h02], ?_, ?_⟩
      · intro j hj hv
        interval_cases j
        · exact le_refl _
        · exact absurd hv h1
        · exact not_lt.mp h02
      · intro j hj _
        omega
  · -- only slot 0 valid
    refine Or.inr ⟨0, by omega, h0, by simp [h0, h1, h2, ltMin], ?_, ?_⟩
    · intro j hj hv
      interval_cases j
      · exact le_refl _
      · exact absurd hv h1
      · exact absurd hv h2
    · intro j hj _
      omega
  · -- slots 1, 2 valid
    by_cases h12 : slotDistSq obs 2 < slotDistSq obs 1
    · refine Or.inr ⟨2, by omega, h2, by simp [h0, h1, h2, ltMin, h12], ?_, ?_⟩
      · intro j hj hv
        interval_cases j
        · exact absurd hv h0
        · exact le_of_lt h12
        · exact le_refl _
      · intro j hj hv
        interval_cases j
        · exact absurd hv h0
        · exact h12
    · refine Or.inr ⟨1, by omega, h1, by simp [h0, h1, h2, ltMin, h12], ?_, ?_⟩
      · intro j hj hv
        interval_cases j
        · exact absurd hv h0
        · exact le_refl _
        · exact not_lt.mp h12
      · intro j hj hv
        interval_cases j
        exact absurd hv h0
  · -- only slot 1 valid
    refine Or.inr ⟨1, by omega, h1, by simp [h0, h1, h2, ltMin], ?_, ?_⟩
    · intro j hj hv
      interval_cases j
      · exact absurd hv h0
      · exact le_refl _
      · exact absurd hv h2
    · intro j hj hv
      interval_cases j
      exact absurd hv h0
  · -- only slot 2 valid
    refine Or.inr ⟨2, by omega, h2, by simp [h0, h1, h2, ltMin], ?_, ?_⟩
    · intro j hj hv
      interval_cases j
      · exact absurd hv h0
      · exact absurd hv h1
      · exact le_refl _
    · intro j hj hv
      interval_cases j
      · exact absurd hv h0
      · exact absurd hv h1
  · -- no valid slot
    refine Or.inl ⟨by simp [h0, h1, h2], ?_⟩
    intro i hi hv
    interval_cases i
    · exact h0 hv
    · exact h1 hv
    · exact h2 hv

/-- C8: with an initialized player location, the attack rule emits an
attack request for the goblin id exactly when some NPC slot holds the
goblin id with valid coordinates, storing it as the current target; the
scan's retained squared distance is that of the first slot attaining the
minimum over all valid slots (first-in-scan-order tie-break); with no
matching slot it emits nothing, records the no-target reason and clears
the target. -/
theorem attack_selects_nearest_goblin (target : Option Int) (obs : Obs)
    (hloc : ¬ (obs.player_location.getD 0 0 = 0 ∧ obs.player_location.getD 1 0 = 0)) :
    ((∃ i, i < MAX_NEARBY_NPCS ∧ goblinSlotValid obs i) →
       handle_attack_npc target (some obs)
         = (some (ActionRequest.attack_npc 125),
            { attack_attempted := true, target_id := some 125 }, some 125)
       ∧ ∃ i, i < MAX_NEARBY_NPCS ∧ goblinSlotValid obs i
           ∧ (goblinScan obs).2 = some (slotDistSq obs i)
           ∧ (∀ j, j < MAX_NEARBY_NPCS → goblinSlotValid obs j →
                slotDistSq obs i ≤ slotDistSq obs j)
           ∧ (∀ j, j < i → goblinSlotValid obs j → slotDistSq obs i < slotDistSq obs j))
    ∧ ((∀ i, i < MAX_NEARBY_NPCS → ¬ goblinSlotValid obs i) →
       handle_attack_npc target (some obs)
         = (Option.none,
            { attack_attempted := false, error := some "No suitable goblin found" },
            Option.none)) := by
  rcases goblinScan_spec obs with ⟨hs, hnone⟩ | ⟨i, hi, hv, hs, hmin, hfirst⟩
  · constructor
    · rintro ⟨i, hi, hv⟩
      exact absurd hv (hnone i hi)
    · intro _
      simp only [handle_attack_npc]
      rw [if_neg hloc, hs]
  · constructor
    · intro _
      refine ⟨?_, i, hi, hv, by rw [hs], hmin, hfirst⟩
      simp only [handle_attack_npc]
      rw [if_neg hloc, hs]
    · intro hnone
      exact absurd hv (hnone i hi)

/-- Witness for C8: two goblins at squared distances 9 (slot 0) and 1
(slot 1) plus one non-goblin; an attack on the goblin id is emitted and
the target set. -/
theorem attack_selects_nearest_goblin_w :
    handle_attack_npc Option.none (some attackTestObs)
      = (some (ActionRequest.attack_npc 125),
         { attack_attempted := true, target_id := some 125 }, some 125) :=
  ((attack_selects_nearest_goblin Option.none attackTestObs (by decide)).1
    ⟨1, by decide, by decide⟩).1

set_option maxHeartbeats 1000000 in
/-- C9: for each telemetry list field (nearby NPCs, inventory, ground
items) holding well-formed records, normalization fills slot i with the
i-th source element (source order preserved) for i below both the list
length and the fixed capacity (3/5/5), leaves every remaining slot at
sentinel -1 in every component, and silently keeps exactly the first
capacity elements when the list is longer. -/
theorem normalize_list_order_pad_truncate :
    (∀ xs : List (ℚ × ℚ × ℚ × ℚ),
       get_obs (Val.dict [("nearby_npcs", Val.list (xs.map mkNpcVal))])
         = some { defaultObs with nearby_npcs_info :=
             (List.range MAX_NEARBY_NPCS).map (fun i =>
               match xs.get? i with
               | some e => [e.1, e.2.1, e.2.2.1, e.2.2.2]
               | Option.none => [-1, -1, -1, -1]) })
    ∧ (∀ xs : List ℚ,
       get_obs (Val.dict [("inventory", Val.list (xs.map mkInvVal))])
         = some { defaultObs with inventory_item_ids :=
             (List.range MAX_INVENTORY_ITEMS).map (fun i =>
               match xs.get? i with
               | some q => q
               | Option.none => -1) })
    ∧ (∀ xs : List (ℚ × ℚ × ℚ × ℚ),
       get_obs (Val.dict [("nearby_ground_items", Val.list (xs.map mkGndVal))])
         = some { defaultObs with nearby_ground_items_info :=
             (List.range MAX_GROUND_ITEMS).map (fun i =>
               match xs.get? i with
               | some e => [e.1, e.2.1, e.2.2.1, e.2.2.2]
               | Option.none => [-1, -1, -1, -1]) }) := by
  refine ⟨fun xs => ?_, fun xs => ?_, fun xs => ?_⟩
  · match xs with
    | [] => rfl
    | [a] => rfl
    | [a, b] => rfl
    | [a, b, c] => rfl
    | a :: b :: c :: d :: r => rfl
  · match xs with
    | [] => rfl
    | [a] => rfl
    | [a, b] => rfl
    | [a, b, c] => rfl
    | [a, b, c, d] => rfl
    | [a, b, c, d, e] => rfl
    | a :: b :: c :: d :: e :: f :: r => rfl
  · rcases xs with _ | ⟨a, _ | ⟨b, _ | ⟨c, _ | ⟨d, _ | ⟨e, _ | ⟨f, rest⟩⟩⟩⟩⟩⟩ <;>
      simp [get_obs, run_parse, parse_player, parse_location, parse_npcs, parse_inventory,
        parse_ground_items, npc_loop, inv_loop, gnd_loop, gnd_entry, asFloat, asInt, pyFloat,
        pyInt, dictGet, List.lookup, pyFalsy, Val.eqStr, setStat, setLoc, setGnd, defaultObs,
        mkGndVal, MAX_GROUND_ITEMS, MAX_NEARBY_NPCS, MAX_INVENTORY_ITEMS, List.range_succ,
        bind, Except.bind]

/-- C10: a timeout returns an error result whose message contains
"timeout" and marks the client disconnected; a call entered while
disconnected performs exactly one reconnection attempt, closing the old
socket and the old context (in that order) strictly before creating the
new context and socket; if that attempt fails the call returns the
"Connection failed" error result without sending anything and without any
further attempt, and if it succeeds exactly one round trip follows. -/
theorem transport_timeout_then_single_reconnect :
    (∀ (st : ClientState) (rok : Bool) (rm : String), st.connected = true →
       send_command st rok TransportResult.timeout rm
         = ({ st with connected := false }, errDict "ZMQ timeout",
            [Ev.sendMsg rm, Ev.recvMsg])
       ∧ ∃ pre post, "ZMQ timeout" = pre ++ "timeout" ++ post)
    ∧ (∀ (st : ClientState) (rok : Bool) (tr : TransportResult) (rm : String),
         st.connected = false → st.hasSocket = true → st.hasContext = true →
         reconnect st rok
           = (if rok then
                ({ st with hasSocket := true, hasContext := true, connected := true,
                           connection_attempts := st.connection_attempts + 1 }, true,
                 [Ev.closeSock, Ev.closeCtx, Ev.sleep, Ev.newCtx, Ev.newSock])
              else
                ({ st with hasSocket := false, hasContext := false, connected := false },
                 false, [Ev.closeSock, Ev.closeCtx, Ev.sleep]))
         ∧ (rok = false →
             send_command st rok tr rm
               = ({ st with hasSocket := false, hasContext := false, connected := false },
                  errDict "Connection failed", [Ev.closeSock, Ev.closeCtx, Ev.sleep]))
         ∧ (rok = true →
             send_command st rok tr rm
               = (let s := sendRecv
                    { st with hasSocket := true, hasContext := true, connected := true,
                              connection_attempts := st.connection_attempts + 1 } tr rm
                  (s.1, s.2.1,
                   [Ev.closeSock, Ev.closeCtx, Ev.sleep, Ev.newCtx, Ev.newSock] ++ s.2.2)))) := by
  constructor
  · intro st rok rm hconn
    refine ⟨?_, "ZMQ ", "", rfl⟩
    simp [send_command, sendRecv, hconn]
  · intro st rok tr rm hconn hsock hctx
    have hrec : reconnect st rok
        = (if rok then
             ({ st with hasSocket := true, hasContext := true, connected := true,
                        connection_attempts := st.connection_attempts + 1 }, true,
              [Ev.closeSock, Ev.closeCtx, Ev.sleep, Ev.newCtx, Ev.newSock])
           else
             ({ st with hasSocket := false, hasContext := false, connected := false },
              false, [Ev.closeSock, Ev.closeCtx, Ev.sleep])) := by
      cases rok <;> simp [reconnect, initConnection, hconn, hsock, hctx]
    refine ⟨hrec, ?_, ?_⟩
    · intro hrok
      subst hrok
      simp only [send_command, hconn, Bool.false_eq_true, if_false, hrec, if_neg]
    · intro hrok
      subst hrok
      simp only [send_command, hconn, Bool.false_eq_true, if_false, hrec, if_pos]

/-- Witness for C10: a connected client timing out, then the next call with
a failing reconnection. -/
theorem transport_timeout_then_single_reconnect_w :
    send_command ⟨true, true, true, 1⟩ true TransportResult.timeout "command:get_observation"
      = (⟨false, true, true, 1⟩, errDict "ZMQ timeout",
         [Ev.sendMsg "command:get_observation", Ev.recvMsg])
    ∧ send_command ⟨false, true, true, 1⟩ false TransportResult.timeout "command:get_observation"
      = (⟨false, false, false, 1⟩, errDict "Connection failed",
         [Ev.closeSock, Ev.closeCtx, Ev.sleep]) :=
  ⟨(transport_timeout_then_single_reconnect.1 ⟨true, true, true, 1⟩ true
      "command:get_observation" rfl).1,
   ((transport_timeout_then_single_reconnect.2 ⟨false, true, true, 1⟩ false
      TransportResult.timeout "command:get_observation" rfl rfl rfl).2.1 rfl)⟩

end Microbot
